import Mathlib

/-!
Verification of `test-scripts/send_test_email.py`, a CLI utility that sends a
single test email over SMTP.

The script is embedded shallowly: the external effects (printing, the SMTP
connection, the message transmission) become an explicit trace of events, and
the behaviour of the external SMTP library is an environment that records
which library call, if any, raises which Python exception.  `sendEmail`
mirrors the Python function `send_email` line by line; `mainRun` mirrors
`main` (argparse defaults plus the single call of `send_email`).
-/

/-- A Python exception value as the script observes it: the runtime class
name (what `type(e).__name__` would print, or the class matched by an
`except` clause) together with its message (`str(e)`). -/
structure PyExc where
  typeName : String
  message : String
deriving DecidableEq, Repr

/-- The MIME message built at the top of `send_email`: a multipart container
with `From`, `To` and `Subject` headers and the attached plain-text parts. -/
structure MimeMessage where
  fromAddr : String
  toAddr : String
  subject : String
  bodyParts : List String
deriving DecidableEq, Repr

/-- Lines 10-16 of the script: create a `MIMEMultipart`, set the three
headers from the arguments, and attach the body as a `MIMEText` part. -/
def buildMessage (fromAddr toAddr subject body : String) : MimeMessage :=
  { fromAddr := fromAddr, toAddr := toAddr, subject := subject,
    bodyParts := [body] }

/-- Observable events of one run: printed stdout lines and the interactions
with the SMTP library (attempting the connection with a timeout, the
connection being established, `set_debuglevel`, `send_message`, and the
close performed by the `with` block). -/
inductive Event where
  | stdout (line : String)
  | connAttempt (host : String) (port : Nat) (timeoutSecs : Nat)
  | connOpened
  | setDebugLevel (level : Nat)
  | sendMsg (msg : MimeMessage)
  | connClose
deriving DecidableEq, Repr

/-- True exactly on connection-attempt events. -/
def Event.isConnAttempt : Event → Bool
  | .connAttempt _ _ _ => true
  | _ => false

/-- True exactly on connection-opened events. -/
def Event.isConnOpened : Event → Bool
  | .connOpened => true
  | _ => false

/-- True exactly on connection-close events. -/
def Event.isConnClose : Event → Bool
  | .connClose => true
  | _ => false

/-- True exactly on message-transmission events. -/
def Event.isSendMsg : Event → Bool
  | .sendMsg _ => true
  | _ => false

/-- Behaviour of the external world during one invocation: which of the three
fallible steps raises, and with which exception.  `constructExc` is an
exception raised while building the MIME message (lines 10-16),
`connectExc` one raised by `smtplib.SMTP(host, port, timeout=10)`, and
`sendExc` one raised by `server.send_message(msg)` after the connection was
established. -/
structure Env where
  constructExc : Option PyExc
  connectExc : Option PyExc
  sendExc : Option PyExc
deriving DecidableEq, Repr

/-- Python checks `except ConnectionRefusedError` by the exception class. -/
def isConnectionRefused (e : PyExc) : Bool :=
  e.typeName == "ConnectionRefusedError"

/-- Python checks `except smtplib.SMTPServerDisconnected` by the class. -/
def isServerDisconnected (e : PyExc) : Bool :=
  e.typeName == "SMTPServerDisconnected"

/-- Output of the `except ConnectionRefusedError` handler (lines 33-36). -/
def refusedReport (host : String) (port : Nat) : List Event :=
  [Event.stdout ("Connection refused - Is the SMTP server running on "
      ++ host ++ ":" ++ toString port ++ "?")]

/-- Output of the `except smtplib.SMTPServerDisconnected` handler
(lines 37-42), annotated with the three possible causes. -/
def disconnectedReport (e : PyExc) : List Event :=
  [Event.stdout ("Server disconnected: " ++ e.message),
   Event.stdout "This might happen if:",
   Event.stdout "1. The server doesn\x27t accept the connection",
   Event.stdout "2. The server requires authentication",
   Event.stdout "3. The server closed the connection unexpectedly"]

/-- Output of the generic `except Exception` handler (lines 43-45): the
message and the runtime class name of the exception. -/
def otherReport (e : PyExc) : List Event :=
  [Event.stdout ("Failed to send email: " ++ e.message),
   Event.stdout ("Error type: " ++ e.typeName)]

/-- The chain of `except` clauses of `send_email`, tried in source order on
the exception that escaped the `try` body. -/
def handleExc (host : String) (port : Nat) (e : PyExc) : List Event :=
  if isConnectionRefused e then refusedReport host port
  else if isServerDisconnected e then disconnectedReport e
  else otherReport e

/-- Events emitted before the connection outcome is known: the progress line
of line 19 and the constructor call `smtplib.SMTP(host, port, timeout=10)`
of line 21. -/
def attemptIntro (host : String) (port : Nat) : List Event :=
  [Event.stdout ("Attempting to connect to " ++ host ++ ":"
      ++ toString port ++ "..."),
   Event.connAttempt host port 10]

/-- Body of the `try` block (lines 19-32): the trace of events it emits and
the exception escaping it, if any.  The `with` block closes the connection
on both exits that follow a successful open. -/
def tryBody (host : String) (port : Nat) (msg : MimeMessage)
    (fromAddr toAddr subject body : String) (env : Env) :
    List Event × Option PyExc :=
  match env.connectExc with
  | some e => (attemptIntro host port, some e)
  | none =>
    let opened := attemptIntro host port ++
      [Event.connOpened, Event.setDebugLevel 1,
       Event.stdout "Connected to server",
       Event.stdout "Attempting to send message..."]
    match env.sendExc with
    | some e => (opened ++ [Event.connClose], some e)
    | none =>
      (opened ++
        [Event.sendMsg msg,
         Event.stdout "\nEmail sent successfully!",
         Event.stdout ("From: " ++ fromAddr),
         Event.stdout ("To: " ++ toAddr),
         Event.stdout ("Subject: " ++ subject),
         Event.stdout ("Body: " ++ body),
         Event.connClose], none)

/-- The function `send_email` (lines 8-45).  The MIME message is built before
the `try` block, so an exception raised there propagates (`Except.error`);
inside the `try` block every exception is caught by one of the three
handlers, so the function returns normally (`Except.ok` with the trace). -/
def sendEmail (host : String) (port : Nat)
    (fromAddr toAddr subject body : String) (env : Env) :
    Except PyExc (List Event) :=
  match env.constructExc with
  | some e => .error e
  | none =>
    let msg := buildMessage fromAddr toAddr subject body
    match tryBody host port msg fromAddr toAddr subject body env with
    | (evs, none) => .ok evs
    | (evs, some e) => .ok (evs ++ handleExc host port e)

/-- The command-line flags the user actually supplied; `none` means the flag
was omitted. -/
structure CliOverrides where
  host : Option String
  port : Option Nat
  fromAddr : Option String
  toAddr : Option String
  subject : Option String
  body : Option String
deriving DecidableEq, Repr

/-- The parsed argument record produced by `parser.parse_args()`. -/
structure CliArgs where
  host : String
  port : Nat
  fromAddr : String
  toAddr : String
  subject : String
  body : String
deriving DecidableEq, Repr

/-- Argument parsing of `main` (lines 49-74): each omitted flag takes the
default declared in the corresponding `add_argument` call. -/
def parseArgs (c : CliOverrides) : CliArgs :=
  { host := c.host.getD "localhost",
    port := c.port.getD 25,
    fromAddr := c.fromAddr.getD "sender@example.com",
    toAddr := c.toAddr.getD "recipient@example.com",
    subject := c.subject.getD "Test Subject Word1 Word2",
    body := c.body.getD "This is a test email body." }

/-- The function `main` (lines 48-78) followed by normal interpreter exit:
parse the flags, call `send_email` once with the parsed values, and exit
with status 0 unless an exception propagated out of `send_email`. -/
def mainRun (c : CliOverrides) (env : Env) :
    Except PyExc (List Event × Nat) :=
  let args := parseArgs c
  match sendEmail args.host args.port args.fromAddr args.toAddr
      args.subject args.body env with
  | .error e => .error e
  | .ok evs => .ok (evs, 0)

/-- The four events that follow a successful connection inside the `with`
block, before `send_message` is attempted (lines 22-26). -/
def openedEvents : List Event :=
  [Event.connOpened, Event.setDebugLevel 1,
   Event.stdout "Connected to server",
   Event.stdout "Attempting to send message..."]

/-- The tail of the trace on a fully successful send (lines 27-32 plus the
close performed when the `with` block is left normally). -/
def successTail (msg : MimeMessage)
    (fromAddr toAddr subject body : String) : List Event :=
  [Event.sendMsg msg,
   Event.stdout "\nEmail sent successfully!",
   Event.stdout ("From: " ++ fromAddr),
   Event.stdout ("To: " ++ toAddr),
   Event.stdout ("Subject: " ++ subject),
   Event.stdout ("Body: " ++ body),
   Event.connClose]

theorem sendEmail_eq_error (host : String) (port : Nat)
    (fromAddr toAddr subject body : String) (env : Env) (e : PyExc)
    (h0 : env.constructExc = some e) :
    sendEmail host port fromAddr toAddr subject body env = .error e := by
  simp [sendEmail, h0]

theorem sendEmail_eq_connectExc (host : String) (port : Nat)
    (fromAddr toAddr subject body : String) (env : Env) (e : PyExc)
    (h0 : env.constructExc = none) (h1 : env.connectExc = some e) :
    sendEmail host port fromAddr toAddr subject body env =
      .ok (attemptIntro host port ++ handleExc host port e) := by
  simp [sendEmail, tryBody, h0, h1]

theorem sendEmail_eq_sendExc (host : String) (port : Nat)
    (fromAddr toAddr subject body : String) (env : Env) (e : PyExc)
    (h0 : env.constructExc = none) (h1 : env.connectExc = none)
    (h2 : env.sendExc = some e) :
    sendEmail host port fromAddr toAddr subject body env =
      .ok ((attemptIntro host port ++ openedEvents ++ [Event.connClose]) ++
        handleExc host port e) := by
  simp [sendEmail, tryBody, openedEvents, h0, h1, h2]

theorem sendEmail_eq_success (host : String) (port : Nat)
    (fromAddr toAddr subject body : String) (env : Env)
    (h0 : env.constructExc = none) (h1 : env.connectExc = none)
    (h2 : env.sendExc = none) :
    sendEmail host port fromAddr toAddr subject body env =
      .ok (attemptIntro host port ++ openedEvents ++
        successTail (buildMessage fromAddr toAddr subject body)
          fromAddr toAddr subject body) := by
  simp [sendEmail, tryBody, openedEvents, successTail, h0, h1, h2]

theorem handleExc_trichotomy (host : String) (port : Nat) (e : PyExc) :
    (isConnectionRefused e = true ∧
      handleExc host port e = refusedReport host port) ∨
    (isConnectionRefused e = false ∧ isServerDisconnected e = true ∧
      handleExc host port e = disconnectedReport e) ∨
    (isConnectionRefused e = false ∧ isServerDisconnected e = false ∧
      handleExc host port e = otherReport e) := by
  by_cases h1 : isConnectionRefused e
  · exact Or.inl ⟨h1, by simp [handleExc, h1]⟩
  · by_cases h2 : isServerDisconnected e
    · exact Or.inr (Or.inl ⟨by simpa using h1, h2, by
        simp [handleExc, h1, h2]⟩)
    · exact Or.inr (Or.inr ⟨by simpa using h1, by simpa using h2, by
        simp [handleExc, h1, h2]⟩)

theorem mem_handleExc_stdout (host : String) (port : Nat) (e : PyExc)
    (ev : Event) (h : ev ∈ handleExc host port e) : ∃ s, ev = .stdout s := by
  unfold handleExc refusedReport disconnectedReport otherReport at h
  split at h
  · simp at h
    exact ⟨_, h⟩
  · split at h
    · simp at h
      rcases h with h | h | h | h | h <;> exact ⟨_, h⟩
    · simp at h
      rcases h with h | h <;> exact ⟨_, h⟩

/-- Claim C1: every exception escaping the connection/send attempt is caught
(the send operation returns normally, `Except.ok`) and classified into
exactly one of three reports with tailored text: the ConnectionRefused
report, the ServerDisconnected report annotated with its possible causes, or
the generic report carrying the exception type name and message. -/
theorem sendEmail_classifies_every_escaping_exception
    (host : String) (port : Nat) (fromAddr toAddr subject body : String)
    (env : Env) (e : PyExc) (h0 : env.constructExc = none)
    (h1 : env.connectExc = some e ∨
      (env.connectExc = none ∧ env.sendExc = some e)) :
    ∃ evs : List Event,
      sendEmail host port fromAddr toAddr subject body env =
        .ok (evs ++ handleExc host port e) ∧
      ((isConnectionRefused e = true ∧
         handleExc host port e = refusedReport host port) ∨
       (isConnectionRefused e = false ∧ isServerDisconnected e = true ∧
         handleExc host port e = disconnectedReport e) ∨
       (isConnectionRefused e = false ∧ isServerDisconnected e = false ∧
         handleExc host port e = otherReport e)) := by
  rcases h1 with h1 | ⟨h1, h2⟩
  · exact ⟨_, sendEmail_eq_connectExc host port fromAddr toAddr subject body
      env e h0 h1, handleExc_trichotomy host port e⟩
  · exact ⟨_, sendEmail_eq_sendExc host port fromAddr toAddr subject body
      env e h0 h1 h2, handleExc_trichotomy host port e⟩

/-- Witness for C1 at a concrete refused connection. -/
theorem sendEmail_classifies_every_escaping_exception_witness :
    ∃ evs : List Event,
      sendEmail "localhost" 25 "a@x" "b@y" "subj" "text"
          ⟨none, some ⟨"ConnectionRefusedError", "refused"⟩, none⟩ =
        .ok (evs ++ handleExc "localhost" 25
          ⟨"ConnectionRefusedError", "refused"⟩) ∧
      ((isConnectionRefused ⟨"ConnectionRefusedError", "refused"⟩ = true ∧
         handleExc "localhost" 25 ⟨"ConnectionRefusedError", "refused"⟩ =
           refusedReport "localhost" 25) ∨
       (isConnectionRefused ⟨"ConnectionRefusedError", "refused"⟩ = false ∧
         isServerDisconnected ⟨"ConnectionRefusedError", "refused"⟩ = true ∧
         handleExc "localhost" 25 ⟨"ConnectionRefusedError", "refused"⟩ =
           disconnectedReport ⟨"ConnectionRefusedError", "refused"⟩) ∨
       (isConnectionRefused ⟨"ConnectionRefusedError", "refused"⟩ = false ∧
         isServerDisconnected ⟨"ConnectionRefusedError", "refused"⟩ = false ∧
         handleExc "localhost" 25 ⟨"ConnectionRefusedError", "refused"⟩ =
           otherReport ⟨"ConnectionRefusedError", "refused"⟩)) :=
  sendEmail_classifies_every_escaping_exception "localhost" 25 "a@x" "b@y"
    "subj" "text" ⟨none, some ⟨"ConnectionRefusedError", "refused"⟩, none⟩
    ⟨"ConnectionRefusedError", "refused"⟩ rfl (Or.inl rfl)

/-- Claim C2: whatever the send outcome (success, connection refused, server
disconnect, or any other exception raised by the connection or the send),
the process exits normally with status 0; the outcome only shows in the
emitted trace. -/
theorem mainRun_always_exits_zero (c : CliOverrides) (env : Env)
    (h0 : env.constructExc = none) :
    ∃ evs : List Event, mainRun c env = .ok (evs, 0) := by
  have h : ∀ host port fa ta s b, ∃ evs,
      sendEmail host port fa ta s b env = .ok evs := by
    intro host port fa ta s b
    cases h1 : env.connectExc with
    | some e => exact ⟨_, sendEmail_eq_connectExc _ _ _ _ _ _ _ _ h0 h1⟩
    | none =>
      cases h2 : env.sendExc with
      | some e => exact ⟨_, sendEmail_eq_sendExc _ _ _ _ _ _ _ _ h0 h1 h2⟩
      | none => exact ⟨_, sendEmail_eq_success _ _ _ _ _ _ _ h0 h1 h2⟩
  obtain ⟨evs, hevs⟩ := h (parseArgs c).host (parseArgs c).port
    (parseArgs c).fromAddr (parseArgs c).toAddr
    (parseArgs c).subject (parseArgs c).body
  exact ⟨evs, by simp [mainRun, hevs]⟩

/-- Witness for C2 at a concrete failing invocation (connection refused with
all flags left at their defaults). -/
theorem mainRun_always_exits_zero_witness :
    ∃ evs : List Event,
      mainRun ⟨none, none, none, none, none, none⟩
          ⟨none, some ⟨"ConnectionRefusedError", "refused"⟩, none⟩ =
        .ok (evs, 0) :=
  mainRun_always_exits_zero ⟨none, none, none, none, none, none⟩
    ⟨none, some ⟨"ConnectionRefusedError", "refused"⟩, none⟩ rfl

/-- Claim C9: the MIME message is built before the `try` block of
`send_email`, so an exception raised during message construction propagates
out of the send operation uncaught, reaching none of the three handlers. -/
theorem sendEmail_construction_exception_propagates
    (host : String) (port : Nat) (fromAddr toAddr subject body : String)
    (env : Env) (e : PyExc) (h0 : env.constructExc = some e) :
    sendEmail host port fromAddr toAddr subject body env = .error e :=
  sendEmail_eq_error host port fromAddr toAddr subject body env e h0

/-- Witness for C9 at a concrete construction failure. -/
theorem sendEmail_construction_exception_propagates_witness :
    sendEmail "localhost" 25 "a@x" "b@y" "subj" "text"
        ⟨some ⟨"TypeError", "bad header"⟩, none, none⟩ =
      .error ⟨"TypeError", "bad header"⟩ :=
  sendEmail_construction_exception_propagates "localhost" 25 "a@x" "b@y"
    "subj" "text" ⟨some ⟨"TypeError", "bad header"⟩, none, none⟩
    ⟨"TypeError", "bad header"⟩ rfl

theorem countP_handleExc_eq_zero (host : String) (port : Nat) (e : PyExc)
    (p : Event → Bool) (hp : ∀ s, p (Event.stdout s) = false) :
    (handleExc host port e).countP p = 0 := by
  rw [List.countP_eq_zero]
  intro ev hev
  obtain ⟨s, rfl⟩ := mem_handleExc_stdout host port e ev hev
  simp [hp]

theorem sendEmail_ok_shape (host : String) (port : Nat)
    (fromAddr toAddr subject body : String) (env : Env) (evs : List Event)
    (h : sendEmail host port fromAddr toAddr subject body env = .ok evs) :
    (∃ e, env.connectExc = some e ∧
      evs = attemptIntro host port ++ handleExc host port e) ∨
    (∃ e, env.connectExc = none ∧ env.sendExc = some e ∧
      evs = (attemptIntro host port ++ openedEvents ++ [Event.connClose]) ++
        handleExc host port e) ∨
    (env.connectExc = none ∧ env.sendExc = none ∧
      evs = attemptIntro host port ++ openedEvents ++
        successTail (buildMessage fromAddr toAddr subject body)
          fromAddr toAddr subject body) := by
  cases h0 : env.constructExc with
  | some e => rw [sendEmail_eq_error _ _ _ _ _ _ _ _ h0] at h; simp at h
  | none =>
    cases h1 : env.connectExc with
    | some e =>
      rw [sendEmail_eq_connectExc _ _ _ _ _ _ _ _ h0 h1] at h
      injection h with h
      exact Or.inl ⟨e, rfl, h.symm⟩
    | none =>
      cases h2 : env.sendExc with
      | some e =>
        rw [sendEmail_eq_sendExc _ _ _ _ _ _ _ _ h0 h1 h2] at h
        injection h with h
        exact Or.inr (Or.inl ⟨e, rfl, rfl, h.symm⟩)
      | none =>
        rw [sendEmail_eq_success _ _ _ _ _ _ _ h0 h1 h2] at h
        injection h with h
        exact Or.inr (Or.inr ⟨rfl, rfl, h.symm⟩)

theorem handleExc_not_special (host : String) (port : Nat) (e : PyExc)
    (hr : isConnectionRefused e = false)
    (hd : isServerDisconnected e = false) :
    handleExc host port e = otherReport e := by
  simp [handleExc, hr, hd]

theorem mainRun_eq_single_send (c : CliOverrides) (env : Env) :
    mainRun c env = (sendEmail (parseArgs c).host (parseArgs c).port
      (parseArgs c).fromAddr (parseArgs c).toAddr (parseArgs c).subject
      (parseArgs c).body env).map (fun evs => (evs, 0)) := by
  cases hs : sendEmail (parseArgs c).host (parseArgs c).port
      (parseArgs c).fromAddr (parseArgs c).toAddr (parseArgs c).subject
      (parseArgs c).body env with
  | error e => simp [mainRun, hs, Except.map]
  | ok evs => simp [mainRun, hs, Except.map]

/-- Claim C3: in every run that returns normally, the connection is closed
exactly as often as it was opened, on the success path and on the paths
where the send raises, because the connection is scoped to the `with`
block spanning the whole attempt. -/
theorem sendEmail_closes_every_opened_connection (host : String) (port : Nat)
    (fromAddr toAddr subject body : String) (env : Env) (evs : List Event)
    (h : sendEmail host port fromAddr toAddr subject body env = .ok evs) :
    evs.countP Event.isConnClose = evs.countP Event.isConnOpened := by
  have hclose : ∀ s, Event.isConnClose (Event.stdout s) = false := fun s => rfl
  have hopen : ∀ s, Event.isConnOpened (Event.stdout s) = false := fun s => rfl
  rcases sendEmail_ok_shape host port fromAddr toAddr subject body env evs h
    with ⟨e, _, rfl⟩ | ⟨e, _, _, rfl⟩ | ⟨_, _, rfl⟩ <;>
    simp [List.countP_append, attemptIntro, openedEvents, successTail,
      countP_handleExc_eq_zero _ _ _ _ hclose,
      countP_handleExc_eq_zero _ _ _ _ hopen,
      List.countP_cons, Event.isConnClose, Event.isConnOpened]

/-- Witness for C3 at a concrete run whose send raises after the connection
was opened. -/
theorem sendEmail_closes_every_opened_connection_witness :
    ((sendEmail "localhost" 25 "a@x" "b@y" "subj" "text"
        ⟨none, none, some ⟨"SMTPServerDisconnected", "eof"⟩⟩).toOption.getD
        []).countP Event.isConnClose =
    ((sendEmail "localhost" 25 "a@x" "b@y" "subj" "text"
        ⟨none, none, some ⟨"SMTPServerDisconnected", "eof"⟩⟩).toOption.getD
        []).countP Event.isConnOpened :=
  sendEmail_closes_every_opened_connection "localhost" 25 "a@x" "b@y" "subj"
    "text" ⟨none, none, some ⟨"SMTPServerDisconnected", "eof"⟩⟩ _ rfl

/-- Claim C7: the entry point is exactly one call of the send operation (its
result is `send_email` applied once to the parsed flags), and every normal
run performs at most one connection attempt and at most one message
transmission: no retry ever occurs. -/
theorem main_calls_send_once_without_retry (c : CliOverrides) (env : Env) :
    mainRun c env = (sendEmail (parseArgs c).host (parseArgs c).port
      (parseArgs c).fromAddr (parseArgs c).toAddr (parseArgs c).subject
      (parseArgs c).body env).map (fun evs => (evs, 0)) ∧
    (∀ evs, sendEmail (parseArgs c).host (parseArgs c).port
        (parseArgs c).fromAddr (parseArgs c).toAddr (parseArgs c).subject
        (parseArgs c).body env = .ok evs →
      evs.countP Event.isConnAttempt ≤ 1 ∧
      evs.countP Event.isSendMsg ≤ 1) := by
  refine ⟨mainRun_eq_single_send c env, ?_⟩
  intro evs h
  have hatt : ∀ s, Event.isConnAttempt (Event.stdout s) = false := fun s => rfl
  have hsnd : ∀ s, Event.isSendMsg (Event.stdout s) = false := fun s => rfl
  rcases sendEmail_ok_shape _ _ _ _ _ _ env evs h
    with ⟨e, _, rfl⟩ | ⟨e, _, _, rfl⟩ | ⟨_, _, rfl⟩ <;>
    constructor <;>
    simp [List.countP_append, attemptIntro, openedEvents, successTail,
      countP_handleExc_eq_zero _ _ _ _ hatt,
      countP_handleExc_eq_zero _ _ _ _ hsnd,
      List.countP_cons, Event.isConnAttempt, Event.isSendMsg]

/-- Witness for C7 with all flags at their defaults and a fully successful
send. -/
theorem main_calls_send_once_without_retry_witness :
    mainRun ⟨none, none, none, none, none, none⟩ ⟨none, none, none⟩ =
      (sendEmail (parseArgs ⟨none, none, none, none, none, none⟩).host
        (parseArgs ⟨none, none, none, none, none, none⟩).port
        (parseArgs ⟨none, none, none, none, none, none⟩).fromAddr
        (parseArgs ⟨none, none, none, none, none, none⟩).toAddr
        (parseArgs ⟨none, none, none, none, none, none⟩).subject
        (parseArgs ⟨none, none, none, none, none, none⟩).body
        ⟨none, none, none⟩).map (fun evs => (evs, 0)) ∧
    (∀ evs, sendEmail (parseArgs ⟨none, none, none, none, none, none⟩).host
        (parseArgs ⟨none, none, none, none, none, none⟩).port
        (parseArgs ⟨none, none, none, none, none, none⟩).fromAddr
        (parseArgs ⟨none, none, none, none, none, none⟩).toAddr
        (parseArgs ⟨none, none, none, none, none, none⟩).subject
        (parseArgs ⟨none, none, none, none, none, none⟩).body
        ⟨none, none, none⟩ = .ok evs →
      evs.countP Event.isConnAttempt ≤ 1 ∧
      evs.countP Event.isSendMsg ≤ 1) :=
  main_calls_send_once_without_retry ⟨none, none, none, none, none, none⟩
    ⟨none, none, none⟩

theorem connAttempt_mem_attemptIntro (host : String) (port : Nat)
    (h2 : String) (p2 t2 : Nat)
    (hm : Event.connAttempt h2 p2 t2 ∈ attemptIntro host port) : t2 = 10 := by
  simp [attemptIntro] at hm
  exact hm.2.2

theorem connAttempt_not_mem_handleExc (host : String) (port : Nat)
    (e : PyExc) (h2 : String) (p2 t2 : Nat) :
    Event.connAttempt h2 p2 t2 ∉ handleExc host port e := by
  intro hm
  obtain ⟨s, hs⟩ := mem_handleExc_stdout host port e _ hm
  simp at hs

theorem connAttempt_timeout_ten (host : String) (port : Nat)
    (fromAddr toAddr subject body : String) (env : Env) (evs : List Event)
    (h : sendEmail host port fromAddr toAddr subject body env = .ok evs)
    (h2 : String) (p2 t2 : Nat)
    (hm : Event.connAttempt h2 p2 t2 ∈ evs) : t2 = 10 := by
  rcases sendEmail_ok_shape host port fromAddr toAddr subject body env evs h
    with ⟨e, _, rfl⟩ | ⟨e, _, _, rfl⟩ | ⟨_, _, rfl⟩
  · rcases List.mem_append.mp hm with hm | hm
    · exact connAttempt_mem_attemptIntro _ _ _ _ _ hm
    · exact absurd hm (connAttempt_not_mem_handleExc _ _ _ _ _ _)
  · rcases List.mem_append.mp hm with hm | hm
    · rcases List.mem_append.mp hm with hm | hm
      · rcases List.mem_append.mp hm with hm | hm
        · exact connAttempt_mem_attemptIntro _ _ _ _ _ hm
        · simp [openedEvents] at hm
      · simp at hm
    · exact absurd hm (connAttempt_not_mem_handleExc _ _ _ _ _ _)
  · rcases List.mem_append.mp hm with hm | hm
    · rcases List.mem_append.mp hm with hm | hm
      · exact connAttempt_mem_attemptIntro _ _ _ _ _ hm
      · simp [openedEvents] at hm
    · simp [successTail] at hm

theorem sendEmail_timeout_reported_other (host : String) (port : Nat)
    (fromAddr toAddr subject body : String) (m : String) :
    sendEmail host port fromAddr toAddr subject body
        ⟨none, some ⟨"TimeoutError", m⟩, none⟩ =
      .ok (attemptIntro host port ++ otherReport ⟨"TimeoutError", m⟩) := by
  rw [sendEmail_eq_connectExc _ _ _ _ _ _ _ _ rfl rfl,
    handleExc_not_special host port ⟨"TimeoutError", m⟩ rfl rfl]

/-- Claim C4: every connection attempt in any trace uses the fixed timeout
of 10 seconds, and when the connect call raises a timeout (server accepted
the connection but never responded, so the library gave up at the timeout)
the run ends with the generic Other report carrying the TimeoutError class
name. -/
theorem sendEmail_fixed_timeout_and_timeout_other (host : String)
    (port : Nat) (fromAddr toAddr subject body : String) (env : Env)
    (evs : List Event) (m : String)
    (h : sendEmail host port fromAddr toAddr subject body env = .ok evs) :
    (∀ h2 p2 t2, Event.connAttempt h2 p2 t2 ∈ evs → t2 = 10) ∧
    sendEmail host port fromAddr toAddr subject body
        ⟨none, some ⟨"TimeoutError", m⟩, none⟩ =
      .ok (attemptIntro host port ++ otherReport ⟨"TimeoutError", m⟩) :=
  ⟨fun h2 p2 t2 hm => connAttempt_timeout_ten host port fromAddr toAddr
      subject body env evs h h2 p2 t2 hm,
    sendEmail_timeout_reported_other host port fromAddr toAddr subject body m⟩

/-- Witness for C4 at a concrete run whose connect call times out. -/
theorem sendEmail_fixed_timeout_and_timeout_other_witness :
    (∀ h2 p2 t2, Event.connAttempt h2 p2 t2 ∈
      ((sendEmail "localhost" 25 "a@x" "b@y" "subj" "text"
        ⟨none, some ⟨"TimeoutError", "timed out"⟩, none⟩).toOption.getD []) →
      t2 = 10) ∧
    sendEmail "localhost" 25 "a@x" "b@y" "subj" "text"
        ⟨none, some ⟨"TimeoutError", "timed out"⟩, none⟩ =
      .ok (attemptIntro "localhost" 25 ++
        otherReport ⟨"TimeoutError", "timed out"⟩) :=
  sendEmail_fixed_timeout_and_timeout_other "localhost" 25 "a@x" "b@y"
    "subj" "text" ⟨none, some ⟨"TimeoutError", "timed out"⟩, none⟩ _
    "timed out" rfl

/-- Claim C5: each omitted command-line flag takes exactly its documented
default, and the parsed values are what the single `send_email` call
receives. -/
theorem cli_defaults_passed_to_send (c : CliOverrides) (env : Env) :
    (c.host = none → (parseArgs c).host = "localhost") ∧
    (c.port = none → (parseArgs c).port = 25) ∧
    (c.fromAddr = none → (parseArgs c).fromAddr = "sender@example.com") ∧
    (c.toAddr = none → (parseArgs c).toAddr = "recipient@example.com") ∧
    (c.subject = none → (parseArgs c).subject = "Test Subject Word1 Word2") ∧
    (c.body = none → (parseArgs c).body = "This is a test email body.") ∧
    mainRun c env = (sendEmail (parseArgs c).host (parseArgs c).port
      (parseArgs c).fromAddr (parseArgs c).toAddr (parseArgs c).subject
      (parseArgs c).body env).map (fun evs => (evs, 0)) := by
  refine ⟨?_, ?_, ?_, ?_, ?_, ?_, mainRun_eq_single_send c env⟩ <;>
    intro hnone <;> simp [parseArgs, hnone]

/-- Witness for C5 with every flag omitted. -/
theorem cli_defaults_passed_to_send_witness :
    (parseArgs ⟨none, none, none, none, none, none⟩).host = "localhost" ∧
    (parseArgs ⟨none, none, none, none, none, none⟩).port = 25 ∧
    (parseArgs ⟨none, none, none, none, none, none⟩).fromAddr =
      "sender@example.com" ∧
    (parseArgs ⟨none, none, none, none, none, none⟩).toAddr =
      "recipient@example.com" ∧
    (parseArgs ⟨none, none, none, none, none, none⟩).subject =
      "Test Subject Word1 Word2" ∧
    (parseArgs ⟨none, none, none, none, none, none⟩).body =
      "This is a test email body." ∧
    mainRun ⟨none, none, none, none, none, none⟩ ⟨none, none, none⟩ =
      (sendEmail (parseArgs ⟨none, none, none, none, none, none⟩).host
        (parseArgs ⟨none, none, none, none, none, none⟩).port
        (parseArgs ⟨none, none, none, none, none, none⟩).fromAddr
        (parseArgs ⟨none, none, none, none, none, none⟩).toAddr
        (parseArgs ⟨none, none, none, none, none, none⟩).subject
        (parseArgs ⟨none, none, none, none, none, none⟩).body
        ⟨none, none, none⟩).map (fun evs => (evs, 0)) :=
  let t := cli_defaults_passed_to_send ⟨none, none, none, none, none, none⟩
    ⟨none, none, none⟩
  ⟨t.1 rfl, t.2.1 rfl, t.2.2.1 rfl, t.2.2.2.1 rfl, t.2.2.2.2.1 rfl,
    t.2.2.2.2.2.1 rfl, t.2.2.2.2.2.2⟩

/-- Claim C6: the constructed message carries the supplied from, to, subject
and body exactly as given, and a successful run echoes those exact values in
its printed output and transmits that exact message. -/
theorem sendEmail_message_faithful_success_echo (host : String) (port : Nat)
    (fromAddr toAddr subject body : String) (env : Env)
    (h0 : env.constructExc = none) (h1 : env.connectExc = none)
    (h2 : env.sendExc = none) :
    (buildMessage fromAddr toAddr subject body).fromAddr = fromAddr ∧
    (buildMessage fromAddr toAddr subject body).toAddr = toAddr ∧
    (buildMessage fromAddr toAddr subject body).subject = subject ∧
    (buildMessage fromAddr toAddr subject body).bodyParts = [body] ∧
    ∃ evs, sendEmail host port fromAddr toAddr subject body env = .ok evs ∧
      Event.sendMsg (buildMessage fromAddr toAddr subject body) ∈ evs ∧
      Event.stdout ("From: " ++ fromAddr) ∈ evs ∧
      Event.stdout ("To: " ++ toAddr) ∈ evs ∧
      Event.stdout ("Subject: " ++ subject) ∈ evs ∧
      Event.stdout ("Body: " ++ body) ∈ evs := by
  refine ⟨rfl, rfl, rfl, rfl,
    attemptIntro host port ++ openedEvents ++
      successTail (buildMessage fromAddr toAddr subject body)
        fromAddr toAddr subject body,
    sendEmail_eq_success host port fromAddr toAddr subject body env h0 h1 h2,
    ?_, ?_, ?_, ?_, ?_⟩ <;>
  simp [attemptIntro, openedEvents, successTail]

/-- Witness for C6 at a concrete successful run. -/
theorem sendEmail_message_faithful_success_echo_witness :
    (buildMessage "a@x" "b@y" "subj" "text").fromAddr = "a@x" ∧
    (buildMessage "a@x" "b@y" "subj" "text").toAddr = "b@y" ∧
    (buildMessage "a@x" "b@y" "subj" "text").subject = "subj" ∧
    (buildMessage "a@x" "b@y" "subj" "text").bodyParts = ["text"] ∧
    ∃ evs, sendEmail "localhost" 25 "a@x" "b@y" "subj" "text"
        ⟨none, none, none⟩ = .ok evs ∧
      Event.sendMsg (buildMessage "a@x" "b@y" "subj" "text") ∈ evs ∧
      Event.stdout ("From: " ++ "a@x") ∈ evs ∧
      Event.stdout ("To: " ++ "b@y") ∈ evs ∧
      Event.stdout ("Subject: " ++ "subj") ∈ evs ∧
      Event.stdout ("Body: " ++ "text") ∈ evs :=
  sendEmail_message_faithful_success_echo "localhost" 25 "a@x" "b@y" "subj"
    "text" ⟨none, none, none⟩ rfl rfl rfl

/-- Counterexample to C8 as stated: a run whose connection is refused does
reach the connection attempt (its trace holds a connection-attempt event)
yet never enables debug output, because `set_debuglevel(1)` only runs after
`smtplib.SMTP` has returned the open connection. -/
theorem connAttempt_reached_without_debug :
    ((sendEmail "localhost" 25 "a@x" "b@y" "subj" "text"
        ⟨none, some ⟨"ConnectionRefusedError", "refused"⟩, none⟩).toOption.getD
        []).countP Event.isConnAttempt = 1 ∧
    Event.setDebugLevel 1 ∉
      ((sendEmail "localhost" 25 "a@x" "b@y" "subj" "text"
        ⟨none, some ⟨"ConnectionRefusedError", "refused"⟩, none⟩).toOption.getD
        []) := ⟨rfl, by decide⟩

/-- Claim C8 (amended): in every run in which the connection attempt
succeeds, the SMTP debug level is set to 1, so the subsequent raw protocol
exchange is printed as diagnostic output beyond the stdout progress text. -/
theorem debug_enabled_once_connected (host : String) (port : Nat)
    (fromAddr toAddr subject body : String) (env : Env) (evs : List Event)
    (h : sendEmail host port fromAddr toAddr subject body env = .ok evs)
    (ho : Event.connOpened ∈ evs) :
    Event.setDebugLevel 1 ∈ evs := by
  rcases sendEmail_ok_shape host port fromAddr toAddr subject body env evs h
    with ⟨e, _, rfl⟩ | ⟨e, _, _, rfl⟩ | ⟨_, _, rfl⟩
  · exfalso
    rcases List.mem_append.mp ho with hm | hm
    · simp [attemptIntro] at hm
    · obtain ⟨s, hs⟩ := mem_handleExc_stdout _ _ _ _ hm
      simp at hs
  · simp [attemptIntro, openedEvents]
  · simp [attemptIntro, openedEvents, successTail]

/-- Witness for the amended C8 at a concrete successful run. -/
theorem debug_enabled_once_connected_witness :
    Event.setDebugLevel 1 ∈
      ((sendEmail "localhost" 25 "a@x" "b@y" "subj" "text"
        ⟨none, none, none⟩).toOption.getD []) :=
  debug_enabled_once_connected "localhost" 25 "a@x" "b@y" "subj" "text"
    ⟨none, none, none⟩ _ rfl (by decide)

/-- Counterexample to C10 as stated: a server-disconnected exception raised
while the connection is being established is reported by the
ServerDisconnected handler, which differs from both the generic Other report
and the ConnectionRefused report, so not every non-refused connect failure
falls through to the generic branch. -/
theorem connect_disconnect_not_reported_other :
    sendEmail "localhost" 25 "a@x" "b@y" "subj" "text"
        ⟨none, some ⟨"SMTPServerDisconnected", "eof"⟩, none⟩ =
      .ok (attemptIntro "localhost" 25 ++
        disconnectedReport ⟨"SMTPServerDisconnected", "eof"⟩) ∧
    disconnectedReport ⟨"SMTPServerDisconnected", "eof"⟩ ≠
      otherReport ⟨"SMTPServerDisconnected", "eof"⟩ ∧
    disconnectedReport ⟨"SMTPServerDisconnected", "eof"⟩ ≠
      refusedReport "localhost" 25 := ⟨rfl, by decide, by decide⟩

/-- Claim C10 (amended): a connect failure is reported as ConnectionRefused
exactly when the exception is the connection-refused class, and every other
exception class apart from the server-disconnected one - for example
hostname resolution failure, host unreachable, or a timeout while
connecting - falls through to the generic branch and is reported with its
runtime class name. -/
theorem refused_report_exactly_for_refused (host : String) (port : Nat)
    (fromAddr toAddr subject body : String) (e : PyExc) (evs : List Event)
    (h : sendEmail host port fromAddr toAddr subject body
        ⟨none, some e, none⟩ = .ok evs) :
    (evs = attemptIntro host port ++ refusedReport host port ↔
      isConnectionRefused e = true) ∧
    (isConnectionRefused e = false → isServerDisconnected e = false →
      evs = attemptIntro host port ++ otherReport e) := by
  rw [sendEmail_eq_connectExc _ _ _ _ _ _ _ _ rfl rfl] at h
  injection h with h
  subst h
  constructor
  · constructor
    · intro hev
      have hh : handleExc host port e = refusedReport host port :=
        List.append_cancel_left hev
      rcases handleExc_trichotomy host port e with ⟨hr, _⟩ | ⟨_, _, h2⟩ |
          ⟨_, _, h2⟩
      · exact hr
      · rw [h2] at hh
        have hlen := congrArg List.length hh
        simp [disconnectedReport, refusedReport] at hlen
      · rw [h2] at hh
        have hlen := congrArg List.length hh
        simp [otherReport, refusedReport] at hlen
    · intro hr
      simp [handleExc, hr]
  · intro hr hd
    rw [handleExc_not_special host port e hr hd]

/-- Witness for the amended C10 at a concrete hostname-resolution failure. -/
theorem refused_report_exactly_for_refused_witness :
    (((sendEmail "localhost" 25 "a@x" "b@y" "subj" "text"
        ⟨none, some ⟨"gaierror", "name not known"⟩, none⟩).toOption.getD []) =
      attemptIntro "localhost" 25 ++ refusedReport "localhost" 25 ↔
      isConnectionRefused ⟨"gaierror", "name not known"⟩ = true) ∧
    (isConnectionRefused ⟨"gaierror", "name not known"⟩ = false →
      isServerDisconnected ⟨"gaierror", "name not known"⟩ = false →
      ((sendEmail "localhost" 25 "a@x" "b@y" "subj" "text"
        ⟨none, some ⟨"gaierror", "name not known"⟩, none⟩).toOption.getD []) =
        attemptIntro "localhost" 25 ++
          otherReport ⟨"gaierror", "name not known"⟩) :=
  refused_report_exactly_for_refused "localhost" 25 "a@x" "b@y" "subj"
    "text" ⟨"gaierror", "name not known"⟩ _ rfl
